import Mathlib

/-!
Verification of the test-echo bridge server (Go), against its design spec.

The repository holds two variants of the same program:
* `src/server.go` (namespace `ServerGo`): dials the processor once in `main`
  (exiting on failure), ticks once per second with clock format "15:04:05",
  and never re-dials after a write failure.
* `src/unnamed/part_000` (namespace `Part000`): lazily dials through a
  mutex-guarded `getConn`, closes and nils the connection on write failure
  (`closeConn`), ticks every 20 ms with clock format "15:04:05.00".

Shared data model (identical in both files): inbound event `Rx`, outbound
command `Response`, JSON marshalling of `Response`, and the configuration
constants.  Machine integers do not occur; all payloads are strings.
-/

namespace TestEcho

/-! ## Configuration constants (identical in both variants) -/

def ServerAddr : String := "192.168.253.8:8080"

def ProcessorAddr : String := "192.168.253.254:8081"

def testLabel : String := "Lbl_Time"

def dontToggleButtons : List String := ["Btn_NoTog"]

def contentType : String := "application/json"

/-! ## Data model: inbound event and outbound command -/

/-- Inbound UI event (`type Rx struct` in both Go files).  A JSON field that
is absent decodes to the empty string in Go, so `value` is a plain `String`
and the missing/empty cases coincide with `value = ""`. -/
structure Rx where
  name : String
  action : String
  value : String
  deriving DecidableEq, Repr

/-- Outbound command (`type Response struct` in both Go files). -/
structure Response where
  type : String
  object : String
  function : String
  arg1 : String
  arg2 : String
  arg3 : String
  deriving DecidableEq, Repr

/-! ## JSON marshalling of `Response` (Go `encoding/json`)

`json.Marshal` on a struct of six string fields emits the object with the
tagged field names in declaration order.  String escaping follows Go:
quote and backslash escaped, `\n`, `\r`, `\t` short forms, other control
characters as `\u00XX` (lowercase hex), and the HTML-escaped characters
`<`, `>`, `&` as their six-character `\u00..` escapes; U+2028/U+2029
likewise. -/

def goJsonEscapeChar (c : Char) : List Char :=
  if c = '"' then ['\\', '"']
  else if c = '\\' then ['\\', '\\']
  else if c = '\n' then ['\\', 'n']
  else if c = '\r' then ['\\', 'r']
  else if c = '\t' then ['\\', 't']
  else if c.toNat < 32 then
    ['\\', 'u', '0', '0', Nat.digitChar (c.toNat / 16), Nat.digitChar (c.toNat % 16)]
  else if c = '<' then ['\\', 'u', '0', '0', '3', 'c']
  else if c = '>' then ['\\', 'u', '0', '0', '3', 'e']
  else if c = '&' then ['\\', 'u', '0', '0', '2', '6']
  else if c.toNat = 8232 then ['\\', 'u', '2', '0', '2', '8']
  else if c.toNat = 8233 then ['\\', 'u', '2', '0', '2', '9']
  else [c]

def goJsonEscape (s : String) : String :=
  ⟨s.data.foldr (fun c acc => goJsonEscapeChar c ++ acc) []⟩

def goJsonQuote (s : String) : String :=
  "\"" ++ goJsonEscape s ++ "\""

/-- The JSON text `json.Marshal` produces for a `Response` value. -/
def marshalResponse (r : Response) : String :=
  "\x7b\"type\":" ++ goJsonQuote r.type ++
  ",\"object\":" ++ goJsonQuote r.object ++
  ",\"function\":" ++ goJsonQuote r.function ++
  ",\"arg1\":" ++ goJsonQuote r.arg1 ++
  ",\"arg2\":" ++ goJsonQuote r.arg2 ++
  ",\"arg3\":" ++ goJsonQuote r.arg3 ++ "\x7d"

/-- Go's `json.Marshal` applied to a `Response`.  `encoding/json` can only
return a non-nil error for unsupported types (channels, functions, cyclic
values) or unsupported map keys; on a struct whose six fields are all
strings it is total (invalid UTF-8 bytes are replaced, never faulted), so
the embedding is `Except.ok` of the marshalled text for every input. -/
def jsonMarshalResponse (r : Response) : Except String String :=
  Except.ok (marshalResponse r)

/-! ## HTTP reply written back to the inbound caller -/

/-- Outcome of an HTTP handler: a 200 reply with a content type and body
(`w.Write`), or `http.Error` with a status code and message. -/
inductive HttpReply where
  | ok (contentType : String) (body : String)
  | httpError (status : Nat) (msg : String)
  deriving DecidableEq, Repr

/-- Status code of a handler outcome (plain `w.Write` replies are 200). -/
def HttpReply.status : HttpReply → Nat
  | .ok _ _ => 200
  | .httpError s _ => s

end TestEcho

/-! ## Variant `src/unnamed/part_000`: codec and HTTP handlers -/

namespace TestEcho.Part000

open TestEcho

/-- The command `btnVisStateToggle` builds (lines 105-124): `none` when the
name is in `dontToggleButtons`, otherwise a Button/SetState command whose
`arg1` is the toggled state (`"1"` exactly when the inbound value is `"0"`,
else `"0"`). -/
def btnVisStateToggleCmd (rx : Rx) : Option Response :=
  if dontToggleButtons.contains rx.name then none
  else
    let state := if rx.value = "0" then "1" else "0"
    some ⟨"Button", rx.name, "SetState", state, "", ""⟩

/-- `btnVisStateToggle` (lines 105-124): Go returns `([]byte, error)`;
`Except.ok none` is the `(nil, nil)` no-op branch, `Except.ok (some s)` the
marshalled command bytes. -/
def btnVisStateToggle (rx : Rx) : Except String (Option String) :=
  match btnVisStateToggleCmd rx with
  | none => Except.ok none
  | some response => (jsonMarshalResponse response).map some

/-- `replyButtonHandler` (lines 126-143), as a function of the decode
result of the request body.  `w.Write(nil)` on the no-op branch leaves an
empty body. -/
def replyButtonHandler (body : Except String Rx) : HttpReply :=
  match body with
  | .error _ => .httpError 400 "Invalid JSON data"
  | .ok rx =>
    match btnVisStateToggle rx with
    | .error e => .httpError 500 e
    | .ok reply => .ok contentType (reply.getD "")

/-- The Slider/SetFill command `replySliderHandler` builds (lines 156-161):
a verbatim echo of the inbound name and value. -/
def sliderResponseCmd (rx : Rx) : Response :=
  ⟨"Slider", rx.name, "SetFill", rx.value, "", ""⟩

/-- `replySliderHandler` (lines 145-173), as a function of the decode
result of the request body. -/
def replySliderHandler (body : Except String Rx) : HttpReply :=
  match body with
  | .error _ => .httpError 400 "Invalid JSON data"
  | .ok rx =>
    match jsonMarshalResponse (sliderResponseCmd rx) with
    | .error e => .httpError 500 e
    | .ok reply => .ok contentType reply

end TestEcho.Part000

/-! ## Variant `src/server.go`: codec and HTTP handlers (textually the same
functions, embedded separately so the two variants can be compared) -/

namespace TestEcho.ServerGo

open TestEcho

/-- The command `btnVisStateToggle` builds (server.go lines 86-105). -/
def btnVisStateToggleCmd (rx : Rx) : Option Response :=
  if dontToggleButtons.contains rx.name then none
  else
    let state := if rx.value = "0" then "1" else "0"
    some ⟨"Button", rx.name, "SetState", state, "", ""⟩

/-- `btnVisStateToggle` (server.go lines 86-105). -/
def btnVisStateToggle (rx : Rx) : Except String (Option String) :=
  match btnVisStateToggleCmd rx with
  | none => Except.ok none
  | some response => (jsonMarshalResponse response).map some

/-- `replyButtonHandler` (server.go lines 107-124). -/
def replyButtonHandler (body : Except String Rx) : HttpReply :=
  match body with
  | .error _ => .httpError 400 "Invalid JSON data"
  | .ok rx =>
    match btnVisStateToggle rx with
    | .error e => .httpError 500 e
    | .ok reply => .ok contentType (reply.getD "")

/-- The Slider/SetFill command of server.go lines 137-142. -/
def sliderResponseCmd (rx : Rx) : Response :=
  ⟨"Slider", rx.name, "SetFill", rx.value, "", ""⟩

/-- `replySliderHandler` (server.go lines 126-154). -/
def replySliderHandler (body : Except String Rx) : HttpReply :=
  match body with
  | .error _ => .httpError 400 "Invalid JSON data"
  | .ok rx =>
    match jsonMarshalResponse (sliderResponseCmd rx) with
    | .error e => .httpError 500 e
    | .ok reply => .ok contentType reply

end TestEcho.ServerGo

/-! ## Clock formatting (Go `time.Time.Format`)

An instant is modelled by its nanoseconds since local midnight
(`t < nsPerDay`).  Layout `"15:04:05"` prints zero-padded 24-hour clock
components; layout `"15:04:05.00"` appends the fraction of a second
truncated to hundredths, with trailing zeros kept. -/

namespace TestEcho

def nsPerSecond : Nat := 1000000000

def nsPerDay : Nat := 86400 * nsPerSecond

def hourOf (t : Nat) : Nat := t / (3600 * nsPerSecond)

def minuteOf (t : Nat) : Nat := t / (60 * nsPerSecond) % 60

def secondOf (t : Nat) : Nat := t / nsPerSecond % 60

def hundredthOf (t : Nat) : Nat := t / 10000000 % 100

/-- Two-digit zero-padded decimal rendering of `n < 100`. -/
def pad2 (n : Nat) : List Char := [Nat.digitChar (n / 10), Nat.digitChar (n % 10)]

/-- Character list of Go layout `"15:04:05"` at instant `t`. -/
def clockChars (t : Nat) : List Char :=
  pad2 (hourOf t) ++ ':' :: (pad2 (minuteOf t) ++ ':' :: pad2 (secondOf t))

/-- Character list of Go layout `"15:04:05.00"` at instant `t`. -/
def clockCharsHundredths (t : Nat) : List Char :=
  pad2 (hourOf t) ++ ':' ::
    (pad2 (minuteOf t) ++ ':' :: (pad2 (secondOf t) ++ '.' :: pad2 (hundredthOf t)))

/-- `time.Now().Format("15:04:05")` (server.go line 161). -/
def formatClock (t : Nat) : String := ⟨clockChars t⟩

/-- `time.Now().Format("15:04:05.00")` (part_000 line 180). -/
def formatClockHundredths (t : Nat) : String := ⟨clockCharsHundredths t⟩

end TestEcho

/-! ## Variant `src/unnamed/part_000`: the connection manager

The mutex `connMu` serializes the bodies of `getConn` (lines 59-74) and
`closeConn` (lines 216-223), the only code that reads or writes the shared
`conn` variable; each such critical section is modelled as one atomic state
transition, and a run is an arbitrary interleaving of these transitions.
Connections are identified by the order in which they were dialed; `live`
is the set of dialed-and-not-yet-closed sockets, `dials` counts dial
attempts.  The environment oracle `dialOk`/`writeOk` decides whether a
given `net.Dial` or `req.Write` succeeds. -/

namespace TestEcho.Part000

open TestEcho

structure ConnState where
  conn : Option Nat
  nextId : Nat
  live : List Nat
  dials : Nat
  deriving DecidableEq, Repr

/-- Process start: `var conn net.Conn` is nil, nothing dialed yet. -/
def initConnState : ConnState := ⟨none, 0, [], 0⟩

/-- `getConn` (lines 59-74): under the mutex, reuse `conn` if non-nil,
otherwise attempt one dial; a failed dial leaves `conn` nil. -/
def getConn (dialOk : Bool) (s : ConnState) : Option Nat × ConnState :=
  match s.conn with
  | some c => (some c, s)
  | none =>
    if dialOk then
      (some s.nextId, ⟨some s.nextId, s.nextId + 1, s.nextId :: s.live, s.dials + 1⟩)
    else
      (none, { s with dials := s.dials + 1 })

/-- `closeConn` (lines 216-223): under the mutex, close the current
connection if any and set `conn` to nil. -/
def closeConn (s : ConnState) : ConnState :=
  match s.conn with
  | some c => { s with conn := none, live := s.live.erase c }
  | none => s

/-- `sendToProcessor` (lines 192-214): acquire the connection (returning
with no write on a dial failure), frame the data as an HTTP POST and write
it once; a failed write triggers `closeConn` and is not retried.  The
returned list holds the write attempts as (connection id, body) pairs. -/
def sendToProcessor (dialOk writeOk : Bool) (data : String) (s : ConnState) :
    ConnState × List (Nat × String) :=
  match getConn dialOk s with
  | (none, s1) => (s1, [])
  | (some c, s1) =>
    if writeOk then (s1, [(c, data)])
    else (closeConn s1, [(c, data)])

/-- The time-label command built by `sendTestSetLabel` (lines 175-190). -/
def timeLabelResponse (t : Nat) : Response :=
  ⟨"Label", testLabel, "SetText", formatClockHundredths t, "", ""⟩

/-- `sendTestSetLabel` (lines 175-190): marshal the time-label command
(logging and returning on a marshal error) and hand it to
`sendToProcessor`.  `t` is the tick instant in nanoseconds since
midnight. -/
def sendTestSetLabel (t : Nat) (dialOk writeOk : Bool) (s : ConnState) :
    ConnState × List (Nat × String) :=
  match jsonMarshalResponse (timeLabelResponse t) with
  | .error _ => (s, [])
  | .ok data => sendToProcessor dialOk writeOk data s

/-- One atomic operation on the shared connection state: a `getConn` call,
a `closeConn` call, a full `sendToProcessor` call, or one ticker tick. -/
inductive Act where
  | acquire (dialOk : Bool)
  | close
  | send (dialOk writeOk : Bool) (data : String)
  | tick (t : Nat) (dialOk writeOk : Bool)
  deriving DecidableEq, Repr

def applyAct : Act → ConnState → ConnState
  | .acquire dialOk, s => (getConn dialOk s).2
  | .close, s => closeConn s
  | .send dialOk writeOk data, s => (sendToProcessor dialOk writeOk data s).1
  | .tick t dialOk writeOk, s => (sendTestSetLabel t dialOk writeOk s).1

/-- A run of the manager: any finite sequence of operations, in any order
the mutex may admit. -/
def run (acts : List Act) (s : ConnState) : ConnState :=
  acts.foldl (fun s a => applyAct a s) s

/-- The shared-transport invariant: the live sockets are exactly the
current `conn` (none, or exactly the one it holds), and any held
connection id was indeed dialed earlier. -/
def connInv (s : ConnState) : Prop :=
  s.live = s.conn.toList ∧ (s.conn = none ∨ s.conn.getD 0 < s.nextId)

/-- `startTicker` (lines 91-99): calls `sendTestSetLabel` once per tick,
forever; `Send` errors are logged and swallowed.  Returns the final state
and the number of ticks processed. -/
def tickLoop : List (Nat × Bool × Bool) → ConnState → ConnState × Nat
  | [], s => (s, 0)
  | (t, dialOk, writeOk) :: rest, s =>
    let s1 := (sendTestSetLabel t dialOk writeOk s).1
    let p := tickLoop rest s1
    (p.1, p.2 + 1)

/-- Server step for one button request (lines 126-143): the handler decodes,
runs the codec and answers over HTTP; it never touches the shared
connection, so the manager state passes through and no frame is written to
the transport. -/
def handleButtonRequest (body : Except String Rx) (s : ConnState) :
    HttpReply × ConnState × List (Nat × String) :=
  (replyButtonHandler body, s, [])

/-- Server step for one slider request (lines 145-173): as for the button
handler, the reply goes only to the HTTP caller, not to the transport. -/
def handleSliderRequest (body : Except String Rx) (s : ConnState) :
    HttpReply × ConnState × List (Nat × String) :=
  (replySliderHandler body, s, [])

end TestEcho.Part000

/-! ## Variant `src/server.go`: startup and ticker -/

namespace TestEcho.ServerGo

open TestEcho

/-- Outcome of `main` (server.go lines 37-65) as a function of whether the
single startup `net.Dial` succeeds.  Handlers are registered first; on a
dial failure `main` prints the error and returns, so the ticker goroutine
never starts and `ListenAndServe` is never reached — the process exits. -/
structure MainRun where
  handlersRegistered : Bool
  tickerStarted : Bool
  serving : Bool
  deriving DecidableEq, Repr

def mainRun (dialOk : Bool) : MainRun :=
  if dialOk then ⟨true, true, true⟩ else ⟨true, false, false⟩

/-- State of the server.go ticker: the one connection dialed in `main`
(identified as socket 0), the sockets still open, and the number of dials
performed.  No code after `main` ever dials or closes. -/
structure TickerState where
  conn : Nat
  live : List Nat
  dials : Nat
  deriving DecidableEq, Repr

/-- The ticker state right after a successful `main` dial. -/
def initTickerState : TickerState := ⟨0, [0], 1⟩

/-- The time-label command built by server.go `sendTestSetLabel`
(lines 156-163), with whole-second precision. -/
def timeLabelResponse (t : Nat) : Response :=
  ⟨"Label", testLabel, "SetText", formatClock t, "", ""⟩

/-- server.go `sendTestSetLabel(conn)` (lines 156-184): marshals the
time-label command and writes it once to the connection dialed in `main`.
A write failure is only printed: the connection is neither closed nor set
to nil, no re-dial path exists, and the next tick writes to the same
connection again. -/
def sendTestSetLabel (t : Nat) (writeOk : Bool) (s : TickerState) :
    TickerState × List (Nat × String) :=
  match jsonMarshalResponse (timeLabelResponse t) with
  | .error _ => (s, [])
  | .ok data => (s, [(s.conn, data)])

end TestEcho.ServerGo

/-! ## Shape checker for the clock text (used by the C7 theorems) -/

namespace TestEcho

/-- Numeric value of a two-digit ASCII rendering. -/
def twoDigitVal (a b : Char) : Nat := (a.toNat - 48) * 10 + (b.toNat - 48)

/-- Checks the fixed 11-character clock shape `HH:MM:SS.cc` with in-range
hour, minute and second fields. -/
def isClockFormatHundredths (s : String) : Bool :=
  match s.data with
  | [h1, h2, k1, m1, m2, k2, s1, s2, d1, f1, f2] =>
    h1.isDigit && h2.isDigit && k1 == ':' && m1.isDigit && m2.isDigit && k2 == ':' &&
    s1.isDigit && s2.isDigit && d1 == '.' && f1.isDigit && f2.isDigit &&
    decide (twoDigitVal h1 h2 < 24) && decide (twoDigitVal m1 m2 < 60) &&
    decide (twoDigitVal s1 s2 < 60)
  | _ => false

/-- Checks the fixed 8-character clock shape `HH:MM:SS` (server.go's
layout, whole-second precision) with in-range hour, minute and second
fields. -/
def isClockFormat (s : String) : Bool :=
  match s.data with
  | [h1, h2, k1, m1, m2, k2, s1, s2] =>
    h1.isDigit && h2.isDigit && k1 == ':' && m1.isDigit && m2.isDigit && k2 == ':' &&
    s1.isDigit && s2.isDigit &&
    decide (twoDigitVal h1 h2 < 24) && decide (twoDigitVal m1 m2 < 60) &&
    decide (twoDigitVal s1 s2 < 60)
  | _ => false

end TestEcho

/-! ## Helper lemmas: the connection-manager invariant is inductive -/

namespace TestEcho.Part000

open TestEcho

theorem connInv_getConn (dialOk : Bool) (s : ConnState) (h : connInv s) :
    connInv (getConn dialOk s).2 := by
  obtain ⟨conn, nextId, live, dials⟩ := s
  cases conn with
  | some c => simpa [getConn, connInv] using h
  | none =>
    obtain ⟨h1, h2⟩ := h
    simp [Option.toList] at h1
    cases dialOk with
    | true =>
      refine ⟨?_, Or.inr (Nat.lt_succ_self _)⟩
      simp [getConn, h1, Option.toList]
    | false =>
      exact ⟨by simp [getConn, h1, Option.toList], Or.inl rfl⟩

theorem connInv_closeConn (s : ConnState) (h : connInv s) : connInv (closeConn s) := by
  obtain ⟨conn, nextId, live, dials⟩ := s
  cases conn with
  | none => simpa [closeConn] using h
  | some c =>
    obtain ⟨h1, h2⟩ := h
    simp [Option.toList] at h1
    refine ⟨?_, Or.inl rfl⟩
    simp [closeConn, h1, Option.toList]

theorem sendToProcessor_fst (dialOk writeOk : Bool) (data : String) (s : ConnState) :
    (sendToProcessor dialOk writeOk data s).1 = (getConn dialOk s).2 ∨
    (sendToProcessor dialOk writeOk data s).1 = closeConn (getConn dialOk s).2 := by
  unfold sendToProcessor
  cases hg : getConn dialOk s with
  | mk oc s1 => cases oc <;> cases writeOk <;> simp

theorem connInv_applyAct (a : Act) (s : ConnState) (h : connInv s) :
    connInv (applyAct a s) := by
  cases a with
  | acquire dialOk => exact connInv_getConn dialOk s h
  | close => exact connInv_closeConn s h
  | send dialOk writeOk data =>
    show connInv (sendToProcessor dialOk writeOk data s).1
    rcases sendToProcessor_fst dialOk writeOk data s with he | he <;> rw [he]
    · exact connInv_getConn dialOk s h
    · exact connInv_closeConn _ (connInv_getConn dialOk s h)
  | tick t dialOk writeOk =>
    show connInv (sendToProcessor dialOk writeOk
      (marshalResponse (timeLabelResponse t)) s).1
    rcases sendToProcessor_fst dialOk writeOk
      (marshalResponse (timeLabelResponse t)) s with he | he <;> rw [he]
    · exact connInv_getConn dialOk s h
    · exact connInv_closeConn _ (connInv_getConn dialOk s h)

theorem connInv_run (acts : List Act) :
    ∀ s : ConnState, connInv s → connInv (run acts s) := by
  induction acts with
  | nil => intro s h; exact h
  | cons a rest ih =>
    intro s h
    simpa [run] using ih (applyAct a s) (connInv_applyAct a s h)

end TestEcho.Part000

open TestEcho

/-! ## The claims -/

/-- C1: at every reachable state of the connection manager, either the
shared connection is nil or exactly one live connection exists, and each
operation (get-or-create, close-and-invalidate, send, tick) preserves the
invariant over arbitrary operation sequences. -/
theorem c1_connection_invariant :
    (∀ acts : List Part000.Act, Part000.connInv (Part000.run acts Part000.initConnState)) ∧
    (∀ (a : Part000.Act) (s : Part000.ConnState),
      Part000.connInv s → Part000.connInv (Part000.applyAct a s)) :=
  ⟨fun acts => Part000.connInv_run acts Part000.initConnState ⟨rfl, Or.inl rfl⟩,
   fun a s h => Part000.connInv_applyAct a s h⟩

/-- C1 witness: the invariant holds after a concrete run containing a
failed write, and is preserved by a concrete close step. -/
theorem c1_witness :
    Part000.connInv
      (Part000.run [Part000.Act.send true false "x", Part000.Act.tick 0 true true]
        Part000.initConnState) ∧
    Part000.connInv (Part000.applyAct Part000.Act.close ⟨some 0, 1, [0], 1⟩) :=
  ⟨c1_connection_invariant.1 _,
   c1_connection_invariant.2 _ _ ⟨rfl, Or.inr Nat.zero_lt_one⟩⟩

/-- C2 (amended): in the part_000 variant, every Send whose write fails —
whether it entered Connected or dialed the connection within the call —
closes that connection and sets it to nil, attempts the failed write
exactly once (no retry), and the next send dials a fresh connection (its
id is the post-failure next dial id, strictly above the failed
connection's id).  In the server.go variant the failed write is likewise
not retried, but the connection is kept (see the counterexample). -/
theorem c2_write_failure_invalidates :
    ∀ (dialOk : Bool) (data : String) (s : Part000.ConnState) (c : Nat),
      Part000.connInv s → (Part000.getConn dialOk s).1 = some c →
      (Part000.sendToProcessor dialOk false data s).1.conn = none ∧
      (Part000.sendToProcessor dialOk false data s).1.live = [] ∧
      (Part000.sendToProcessor dialOk false data s).2 = [(c, data)] ∧
      (∀ data2 : String,
        (Part000.sendToProcessor true true data2
          (Part000.sendToProcessor dialOk false data s).1).2 =
          [((Part000.sendToProcessor dialOk false data s).1.nextId, data2)]) ∧
      c < (Part000.sendToProcessor dialOk false data s).1.nextId := by
  intro dialOk data s c hinv hget
  obtain ⟨conn, nextId, live, dials⟩ := s
  obtain ⟨h1, h2⟩ := hinv
  cases conn with
  | some c0 =>
    have hc : c0 = c := by simpa [Part000.getConn] using hget
    subst hc
    simp [Option.toList] at h1
    have hlt : c0 < nextId := by
      rcases h2 with h2 | h2
      · cases h2
      · simpa using h2
    refine ⟨?_, ?_, ?_, ?_, ?_⟩ <;>
      simp [Part000.sendToProcessor, Part000.getConn, Part000.closeConn, h1, hlt]
  | none =>
    cases dialOk with
    | false => simp [Part000.getConn] at hget
    | true =>
      have hc : nextId = c := by simpa [Part000.getConn] using hget
      subst hc
      simp [Option.toList] at h1
      refine ⟨?_, ?_, ?_, ?_, ?_⟩ <;>
        simp [Part000.sendToProcessor, Part000.getConn, Part000.closeConn, h1,
          Nat.lt_succ_self]

/-- C2 witness: a concrete Send that enters Disconnected, dials
successfully inside the call and then fails its write. -/
theorem c2_witness :
    (Part000.sendToProcessor true false "cmd" Part000.initConnState).1.conn = none ∧
    (Part000.sendToProcessor true true "next"
      (Part000.sendToProcessor true false "cmd" Part000.initConnState).1).2 =
      [(1, "next")] :=
  ⟨(c2_write_failure_invalidates true "cmd" Part000.initConnState 0
      ⟨rfl, Or.inl rfl⟩ rfl).1,
   (c2_write_failure_invalidates true "cmd" Part000.initConnState 0
      ⟨rfl, Or.inl rfl⟩ rfl).2.2.2.1 "next"⟩

/-- C2 counterexample: in the server.go variant a failed write does not
close the connection, does not set it to nil (the socket stays live), and
the immediately following send reuses the same connection with no fresh
dial — contradicting the claim as stated for every Send of the program. -/
theorem c2_counterexample :
    (ServerGo.sendTestSetLabel 0 false ServerGo.initTickerState).1 = ServerGo.initTickerState ∧
    (ServerGo.sendTestSetLabel 0 false ServerGo.initTickerState).1.live = [0] ∧
    (ServerGo.sendTestSetLabel 1000000000 true
      (ServerGo.sendTestSetLabel 0 false ServerGo.initTickerState).1).2 =
      [(0, marshalResponse (ServerGo.timeLabelResponse 1000000000))] ∧
    (ServerGo.sendTestSetLabel 1000000000 true
      (ServerGo.sendTestSetLabel 0 false ServerGo.initTickerState).1).1.dials = 1 :=
  ⟨rfl, rfl, rfl, rfl⟩

/-- C3: an inbound button event whose name is in the exclusion set yields
no command and no error; otherwise the built command is Button/SetState on
the event's name with arg1 toggled from the value (`"1"` exactly when the
value is `"0"`, `"0"` for every other value, the empty/missing value
included). -/
theorem c3_toggle_response :
    ∀ rx : Rx,
      (dontToggleButtons.contains rx.name = true →
        Part000.btnVisStateToggle rx = Except.ok none) ∧
      (dontToggleButtons.contains rx.name = false →
        Part000.btnVisStateToggleCmd rx =
          some ⟨"Button", rx.name, "SetState",
            if rx.value = "0" then "1" else "0", "", ""⟩) ∧
      (dontToggleButtons.contains rx.name = false → rx.value ≠ "0" →
        (Part000.btnVisStateToggleCmd rx).map Response.arg1 = some "0") := by
  intro rx
  refine ⟨fun hc => ?_, fun hc => ?_, fun hc hv => ?_⟩
  · have hm : rx.name ∈ dontToggleButtons := by simpa using hc
    simp [Part000.btnVisStateToggle, Part000.btnVisStateToggleCmd, hm]
  · have hm : rx.name ∉ dontToggleButtons := by simpa using hc
    simp [Part000.btnVisStateToggleCmd, hm]
  · have hm : rx.name ∉ dontToggleButtons := by simpa using hc
    simp [Part000.btnVisStateToggleCmd, hm, hv]

/-- C3 witness: the excluded button, a pressed button with value "0", and
a button with empty value. -/
theorem c3_witness :
    Part000.btnVisStateToggle ⟨"Btn_NoTog", "press", "0"⟩ = Except.ok none ∧
    Part000.btnVisStateToggleCmd ⟨"Btn_1", "press", "0"⟩ =
      some ⟨"Button", "Btn_1", "SetState", "1", "", ""⟩ ∧
    (Part000.btnVisStateToggleCmd ⟨"Btn_1", "press", ""⟩).map Response.arg1 = some "0" :=
  ⟨(c3_toggle_response ⟨"Btn_NoTog", "press", "0"⟩).1 (by decide),
   by simpa using (c3_toggle_response ⟨"Btn_1", "press", "0"⟩).2.1 (by decide),
   (c3_toggle_response ⟨"Btn_1", "press", ""⟩).2.2 (by decide) (by decide)⟩

/-- C5: the slider handler always echoes a Slider/SetFill command whose
object is the inbound name and whose arg1 is the inbound value verbatim,
and replies with its marshalled JSON. -/
theorem c5_slider_passthrough :
    ∀ rx : Rx,
      (Part000.sliderResponseCmd rx).type = "Slider" ∧
      (Part000.sliderResponseCmd rx).function = "SetFill" ∧
      (Part000.sliderResponseCmd rx).object = rx.name ∧
      (Part000.sliderResponseCmd rx).arg1 = rx.value ∧
      Part000.replySliderHandler (Except.ok rx) =
        HttpReply.ok contentType (marshalResponse (Part000.sliderResponseCmd rx)) :=
  fun _ => ⟨rfl, rfl, rfl, rfl, rfl⟩

/-- C4 (amended): in the part_000 variant a dial failure is non-fatal —
the send completes with no frame and only the attempt counter changed, the
ticker processes every tick regardless of dial/write outcomes, and request
handling does not depend on the manager state; in the server.go variant
the process only reaches serving when its one startup dial succeeds (see
the counterexample for the failure case). -/
theorem c4_dial_failure_nonfatal :
    (∀ (writeOk : Bool) (data : String) (s : Part000.ConnState), s.conn = none →
      Part000.sendToProcessor false writeOk data s = ({ s with dials := s.dials + 1 }, [])) ∧
    (∀ (ticks : List (Nat × Bool × Bool)) (s : Part000.ConnState),
      (Part000.tickLoop ticks s).2 = ticks.length) ∧
    (∀ (body : Except String Rx) (s s' : Part000.ConnState),
      (Part000.handleButtonRequest body s).1 = (Part000.handleButtonRequest body s').1) ∧
    (ServerGo.mainRun true).serving = true := by
  refine ⟨?_, ?_, fun body s s' => rfl, rfl⟩
  · intro writeOk data s h
    simp [Part000.sendToProcessor, Part000.getConn, h]
  · intro ticks
    induction ticks with
    | nil => intro s; rfl
    | cons p rest ih =>
      intro s
      obtain ⟨t, dialOk, writeOk⟩ := p
      simp [Part000.tickLoop, ih]

/-- C4 witness: a concrete failed dial followed by two processed ticks. -/
theorem c4_witness :
    Part000.sendToProcessor false true "d" Part000.initConnState =
      ({ Part000.initConnState with dials := 1 }, []) ∧
    (Part000.tickLoop [(0, false, true), (1, true, true)] Part000.initConnState).2 = 2 :=
  ⟨c4_dial_failure_nonfatal.1 true "d" Part000.initConnState rfl,
   c4_dial_failure_nonfatal.2.1 [(0, false, true), (1, true, true)] Part000.initConnState⟩

/-- C4 counterexample: in server.go, a failed startup dial makes `main`
return — the ticker never starts and the server never serves, so the
process does terminate because of a dial failure. -/
theorem c4_counterexample :
    (ServerGo.mainRun false).serving = false ∧
    (ServerGo.mainRun false).tickerStarted = false ∧
    (ServerGo.mainRun false).handlersRegistered = true :=
  ⟨rfl, rfl, rfl⟩

/-- C6: if a connection already exists, get-or-create returns it without
dialing, and two consecutive successful sends from a disconnected state
perform exactly one dial in total. -/
theorem c6_acquire_idempotent :
    (∀ (dialOk : Bool) (s : Part000.ConnState) (c : Nat), s.conn = some c →
      Part000.getConn dialOk s = (some c, s)) ∧
    (∀ (s : Part000.ConnState) (data1 data2 : String), s.conn = none →
      (Part000.sendToProcessor true true data2
        (Part000.sendToProcessor true true data1 s).1).1.dials = s.dials + 1) := by
  constructor
  · intro dialOk s c h
    simp [Part000.getConn, h]
  · intro s data1 data2 h
    simp [Part000.sendToProcessor, Part000.getConn, h]

/-- C6 witness: a connected state is returned unchanged, and two sends
from the initial state dial once. -/
theorem c6_witness :
    Part000.getConn true ⟨some 5, 6, [5], 1⟩ = (some 5, ⟨some 5, 6, [5], 1⟩) ∧
    (Part000.sendToProcessor true true "b"
      (Part000.sendToProcessor true true "a" Part000.initConnState).1).1.dials =
      Part000.initConnState.dials + 1 :=
  ⟨c6_acquire_idempotent.1 true ⟨some 5, 6, [5], 1⟩ 5 rfl,
   c6_acquire_idempotent.2 Part000.initConnState "a" "b" rfl⟩

/-- C8: a malformed request body yields the 400 client error on both
endpoints, while the connection manager state passes through unchanged and
no frame is written to the transport. -/
theorem c8_malformed_json_no_side_effect :
    ∀ (e : String) (s : Part000.ConnState),
      Part000.handleButtonRequest (Except.error e) s =
        (HttpReply.httpError 400 "Invalid JSON data", s, []) ∧
      Part000.handleSliderRequest (Except.error e) s =
        (HttpReply.httpError 400 "Invalid JSON data", s, []) :=
  fun _ _ => ⟨rfl, rfl⟩

/-- C9: marshalling an outbound command never returns an error, so both
handlers only ever answer 200 or 400 — the 500 serialization-failure
branch is unreachable. -/
theorem c9_no_serialization_error :
    (∀ r : Response, jsonMarshalResponse r = Except.ok (marshalResponse r)) ∧
    (∀ body : Except String Rx,
      ((Part000.replyButtonHandler body).status = 200 ∨
        (Part000.replyButtonHandler body).status = 400) ∧
      ((Part000.replySliderHandler body).status = 200 ∨
        (Part000.replySliderHandler body).status = 400)) := by
  refine ⟨fun r => rfl, fun body => ⟨?_, ?_⟩⟩
  · cases body with
    | error e => exact Or.inr rfl
    | ok rx =>
      refine Or.inl ?_
      cases hc : Part000.btnVisStateToggleCmd rx with
      | none =>
        simp [Part000.replyButtonHandler, Part000.btnVisStateToggle, hc, HttpReply.status]
      | some r =>
        simp [Part000.replyButtonHandler, Part000.btnVisStateToggle, hc,
          jsonMarshalResponse, Except.map, HttpReply.status]
  · cases body with
    | error e => exact Or.inr rfl
    | ok rx => exact Or.inl rfl

/-- C10: the two source variants implement the same codec at the HTTP
boundary — the button-toggle functions agree on every event, and both
handlers produce identical replies for identical decoded inputs. -/
theorem c10_variants_equivalent :
    (∀ rx : Rx, ServerGo.btnVisStateToggle rx = Part000.btnVisStateToggle rx) ∧
    (∀ body : Except String Rx,
      ServerGo.replyButtonHandler body = Part000.replyButtonHandler body ∧
      ServerGo.replySliderHandler body = Part000.replySliderHandler body) :=
  ⟨fun _ => rfl, fun _ => ⟨rfl, rfl⟩⟩

/-! ## Helper lemmas for the clock format (C7) -/

namespace TestEcho

theorem digitChar_lt_digitChar :
    ∀ x, x < 10 → ∀ y, y < 10 → x < y → Nat.digitChar x < Nat.digitChar y := by decide

theorem digitChar_isDigit : ∀ x, x < 10 → (Nat.digitChar x).isDigit = true := by decide

theorem twoDigitVal_digitChar :
    ∀ n, n < 100 → twoDigitVal (Nat.digitChar (n / 10)) (Nat.digitChar (n % 10)) = n := by
  decide

/-- Lexicographic comparison of equal-length prefixes transfers to any
continuations. -/
theorem lexAppend {xs ys : List Char} (h : List.Lex (· < ·) xs ys) :
    ∀ as bs : List Char, xs.length = ys.length →
      List.Lex (· < ·) (xs ++ as) (ys ++ bs) := by
  induction h with
  | nil => intro as bs hlen; simp at hlen
  | cons h ih => intro as bs hlen; exact List.Lex.cons (ih as bs (by simpa using hlen))
  | rel h => intro as bs _; exact List.Lex.rel h

theorem pad2_lt {a b : Nat} (hb : b < 100) (h : a < b) :
    List.Lex (· < ·) (pad2 a) (pad2 b) := by
  rcases Nat.lt_or_ge (a / 10) (b / 10) with h10 | h10
  · exact List.Lex.rel (digitChar_lt_digitChar _ (by omega) _ (by omega) h10)
  · have he : a / 10 = b / 10 := by omega
    have h1 : a % 10 < b % 10 := by omega
    rw [pad2, pad2, he]
    exact List.Lex.cons (List.Lex.rel (digitChar_lt_digitChar _ (by omega) _ (by omega) h1))

theorem clockCharsHundredths_lex {t1 t2 : Nat} (h1 : t1 < nsPerDay) (h2 : t2 < nsPerDay)
    (h : t1 / 10000000 < t2 / 10000000) :
    List.Lex (· < ·) (clockCharsHundredths t1) (clockCharsHundredths t2) := by
  have hh2 : hourOf t2 < 24 := by unfold hourOf nsPerDay nsPerSecond at *; omega
  have hm2 : minuteOf t2 < 60 := by unfold minuteOf; omega
  have hs2 : secondOf t2 < 60 := by unfold secondOf; omega
  have hf2 : hundredthOf t2 < 100 := by unfold hundredthOf; omega
  have hd : hourOf t1 < hourOf t2 ∨ (hourOf t1 = hourOf t2 ∧
      (minuteOf t1 < minuteOf t2 ∨ (minuteOf t1 = minuteOf t2 ∧
        (secondOf t1 < secondOf t2 ∨ (secondOf t1 = secondOf t2 ∧
          hundredthOf t1 < hundredthOf t2))))) := by
    unfold hourOf minuteOf secondOf hundredthOf nsPerDay nsPerSecond at *
    omega
  rw [clockCharsHundredths, clockCharsHundredths]
  rcases hd with hh | ⟨hh, hd⟩
  · exact lexAppend (pad2_lt (by omega) hh) _ _ rfl
  rw [hh]
  apply List.Lex.append_left
  apply List.Lex.cons
  rcases hd with hm | ⟨hm, hd⟩
  · exact lexAppend (pad2_lt (by omega) hm) _ _ rfl
  rw [hm]
  apply List.Lex.append_left
  apply List.Lex.cons
  rcases hd with hs | ⟨hs, hd⟩
  · exact lexAppend (pad2_lt (by omega) hs) _ _ rfl
  rw [hs]
  apply List.Lex.append_left
  apply List.Lex.cons
  exact pad2_lt hf2 hd

theorem clockCharsHundredths_congr {t1 t2 : Nat} (h : t1 / 10000000 = t2 / 10000000) :
    clockCharsHundredths t1 = clockCharsHundredths t2 := by
  have hh : hourOf t1 = hourOf t2 := by unfold hourOf nsPerSecond; omega
  have hm : minuteOf t1 = minuteOf t2 := by unfold minuteOf nsPerSecond; omega
  have hs : secondOf t1 = secondOf t2 := by unfold secondOf nsPerSecond; omega
  have hf : hundredthOf t1 = hundredthOf t2 := by unfold hundredthOf; omega
  rw [clockCharsHundredths, clockCharsHundredths, hh, hm, hs, hf]

theorem formatClockHundredths_lt {t1 t2 : Nat} (h1 : t1 < nsPerDay) (h2 : t2 < nsPerDay)
    (h : t1 / 10000000 < t2 / 10000000) :
    formatClockHundredths t1 < formatClockHundredths t2 := by
  rw [String.lt_iff_toList_lt]
  exact clockCharsHundredths_lex h1 h2 h

theorem isClockFormatHundredths_format (t : Nat) (ht : t < nsPerDay) :
    isClockFormatHundredths (formatClockHundredths t) = true := by
  have hh : hourOf t < 24 := by unfold hourOf nsPerDay nsPerSecond at *; omega
  have hm : minuteOf t < 60 := by unfold minuteOf; omega
  have hs : secondOf t < 60 := by unfold secondOf; omega
  have hf : hundredthOf t < 100 := by unfold hundredthOf; omega
  have hdata : isClockFormatHundredths (formatClockHundredths t) =
      ((Nat.digitChar (hourOf t / 10)).isDigit &&
        (Nat.digitChar (hourOf t % 10)).isDigit && (':' == ':') &&
        (Nat.digitChar (minuteOf t / 10)).isDigit &&
        (Nat.digitChar (minuteOf t % 10)).isDigit && (':' == ':') &&
        (Nat.digitChar (secondOf t / 10)).isDigit &&
        (Nat.digitChar (secondOf t % 10)).isDigit && ('.' == '.') &&
        (Nat.digitChar (hundredthOf t / 10)).isDigit &&
        (Nat.digitChar (hundredthOf t % 10)).isDigit &&
        decide (twoDigitVal (Nat.digitChar (hourOf t / 10))
          (Nat.digitChar (hourOf t % 10)) < 24) &&
        decide (twoDigitVal (Nat.digitChar (minuteOf t / 10))
          (Nat.digitChar (minuteOf t % 10)) < 60) &&
        decide (twoDigitVal (Nat.digitChar (secondOf t / 10))
          (Nat.digitChar (secondOf t % 10)) < 60)) := rfl
  rw [hdata, twoDigitVal_digitChar (hourOf t) (by omega),
    twoDigitVal_digitChar (minuteOf t) (by omega),
    twoDigitVal_digitChar (secondOf t) (by omega)]
  simp [digitChar_isDigit _ (by omega : hourOf t / 10 < 10),
    digitChar_isDigit _ (by omega : hourOf t % 10 < 10),
    digitChar_isDigit _ (by omega : minuteOf t / 10 < 10),
    digitChar_isDigit _ (by omega : minuteOf t % 10 < 10),
    digitChar_isDigit _ (by omega : secondOf t / 10 < 10),
    digitChar_isDigit _ (by omega : secondOf t % 10 < 10),
    digitChar_isDigit _ (by omega : hundredthOf t / 10 < 10),
    digitChar_isDigit _ (by omega : hundredthOf t % 10 < 10),
    hh, hm, hs]

theorem clockChars_lex {t1 t2 : Nat} (h2 : t2 < nsPerDay)
    (h : t1 / 1000000000 < t2 / 1000000000) :
    List.Lex (· < ·) (clockChars t1) (clockChars t2) := by
  have hh2 : hourOf t2 < 24 := by unfold hourOf nsPerDay nsPerSecond at *; omega
  have hm2 : minuteOf t2 < 60 := by unfold minuteOf; omega
  have hs2 : secondOf t2 < 60 := by unfold secondOf; omega
  have hd : hourOf t1 < hourOf t2 ∨ (hourOf t1 = hourOf t2 ∧
      (minuteOf t1 < minuteOf t2 ∨ (minuteOf t1 = minuteOf t2 ∧
        secondOf t1 < secondOf t2))) := by
    unfold hourOf minuteOf secondOf nsPerDay nsPerSecond at *
    omega
  rw [clockChars, clockChars]
  rcases hd with hh | ⟨hh, hd⟩
  · exact lexAppend (pad2_lt (by omega) hh) _ _ rfl
  rw [hh]
  apply List.Lex.append_left
  apply List.Lex.cons
  rcases hd with hm | ⟨hm, hd⟩
  · exact lexAppend (pad2_lt (by omega) hm) _ _ rfl
  rw [hm]
  apply List.Lex.append_left
  apply List.Lex.cons
  exact pad2_lt (by omega) hd

theorem clockChars_congr {t1 t2 : Nat} (h : t1 / 1000000000 = t2 / 1000000000) :
    clockChars t1 = clockChars t2 := by
  have hh : hourOf t1 = hourOf t2 := by unfold hourOf nsPerSecond; omega
  have hm : minuteOf t1 = minuteOf t2 := by unfold minuteOf nsPerSecond; omega
  have hs : secondOf t1 = secondOf t2 := by unfold secondOf nsPerSecond; omega
  rw [clockChars, clockChars, hh, hm, hs]

theorem formatClock_lt {t1 t2 : Nat} (h2 : t2 < nsPerDay)
    (h : t1 / 1000000000 < t2 / 1000000000) :
    formatClock t1 < formatClock t2 := by
  rw [String.lt_iff_toList_lt]
  exact clockChars_lex h2 h

theorem isClockFormat_format (t : Nat) (ht : t < nsPerDay) :
    isClockFormat (formatClock t) = true := by
  have hh : hourOf t < 24 := by unfold hourOf nsPerDay nsPerSecond at *; omega
  have hm : minuteOf t < 60 := by unfold minuteOf; omega
  have hs : secondOf t < 60 := by unfold secondOf; omega
  have hdata : isClockFormat (formatClock t) =
      ((Nat.digitChar (hourOf t / 10)).isDigit &&
        (Nat.digitChar (hourOf t % 10)).isDigit && (':' == ':') &&
        (Nat.digitChar (minuteOf t / 10)).isDigit &&
        (Nat.digitChar (minuteOf t % 10)).isDigit && (':' == ':') &&
        (Nat.digitChar (secondOf t / 10)).isDigit &&
        (Nat.digitChar (secondOf t % 10)).isDigit &&
        decide (twoDigitVal (Nat.digitChar (hourOf t / 10))
          (Nat.digitChar (hourOf t % 10)) < 24) &&
        decide (twoDigitVal (Nat.digitChar (minuteOf t / 10))
          (Nat.digitChar (minuteOf t % 10)) < 60) &&
        decide (twoDigitVal (Nat.digitChar (secondOf t / 10))
          (Nat.digitChar (secondOf t % 10)) < 60)) := rfl
  rw [hdata, twoDigitVal_digitChar (hourOf t) (by omega),
    twoDigitVal_digitChar (minuteOf t) (by omega),
    twoDigitVal_digitChar (secondOf t) (by omega)]
  simp [digitChar_isDigit _ (by omega : hourOf t / 10 < 10),
    digitChar_isDigit _ (by omega : hourOf t % 10 < 10),
    digitChar_isDigit _ (by omega : minuteOf t / 10 < 10),
    digitChar_isDigit _ (by omega : minuteOf t % 10 < 10),
    digitChar_isDigit _ (by omega : secondOf t / 10 < 10),
    digitChar_isDigit _ (by omega : secondOf t % 10 < 10),
    hh, hm, hs]

end TestEcho

/-- C7 (amended): in both variants the time-label command's arg1 is
exactly that variant's fixed-width clock rendering of its instant
(`HH:MM:SS.cc` in part_000, `HH:MM:SS` in server.go) and matches the
corresponding shape; within one day each rendering is monotone — for a
later instant the arg1 is lexically greater or equal, equal exactly when
both instants truncate to the same unit of that variant's precision (the
hundredth of a second, resp. the whole second), and strictly greater
whenever the truncations differ. -/
theorem c7_time_label_format :
    (∀ t : Nat, t < nsPerDay →
      (Part000.timeLabelResponse t).arg1 = formatClockHundredths t ∧
      isClockFormatHundredths ((Part000.timeLabelResponse t).arg1) = true) ∧
    (∀ t1 t2 : Nat, t1 < nsPerDay → t2 < nsPerDay → t1 ≤ t2 →
      (Part000.timeLabelResponse t1).arg1 < (Part000.timeLabelResponse t2).arg1 ∨
      (Part000.timeLabelResponse t1).arg1 = (Part000.timeLabelResponse t2).arg1) ∧
    (∀ t1 t2 : Nat, t1 < nsPerDay → t2 < nsPerDay → t1 / 10000000 < t2 / 10000000 →
      (Part000.timeLabelResponse t1).arg1 < (Part000.timeLabelResponse t2).arg1) ∧
    (∀ t1 t2 : Nat, t1 / 10000000 = t2 / 10000000 →
      (Part000.timeLabelResponse t1).arg1 = (Part000.timeLabelResponse t2).arg1) ∧
    (∀ t : Nat, t < nsPerDay →
      (ServerGo.timeLabelResponse t).arg1 = formatClock t ∧
      isClockFormat ((ServerGo.timeLabelResponse t).arg1) = true) ∧
    (∀ t1 t2 : Nat, t1 < nsPerDay → t2 < nsPerDay → t1 ≤ t2 →
      (ServerGo.timeLabelResponse t1).arg1 < (ServerGo.timeLabelResponse t2).arg1 ∨
      (ServerGo.timeLabelResponse t1).arg1 = (ServerGo.timeLabelResponse t2).arg1) ∧
    (∀ t1 t2 : Nat, t1 < nsPerDay → t2 < nsPerDay → t1 / 1000000000 < t2 / 1000000000 →
      (ServerGo.timeLabelResponse t1).arg1 < (ServerGo.timeLabelResponse t2).arg1) ∧
    (∀ t1 t2 : Nat, t1 / 1000000000 = t2 / 1000000000 →
      (ServerGo.timeLabelResponse t1).arg1 = (ServerGo.timeLabelResponse t2).arg1) := by
  refine ⟨fun t ht => ⟨rfl, isClockFormatHundredths_format t ht⟩,
    fun t1 t2 h1 h2 hle => ?_,
    fun t1 t2 h1 h2 hlt => formatClockHundredths_lt h1 h2 hlt,
    fun t1 t2 he => congrArg String.mk (clockCharsHundredths_congr he),
    fun t ht => ⟨rfl, isClockFormat_format t ht⟩,
    fun t1 t2 h1 h2 hle => ?_,
    fun t1 t2 h1 h2 hlt => formatClock_lt h2 hlt,
    fun t1 t2 he => congrArg String.mk (clockChars_congr he)⟩
  · rcases Nat.lt_or_ge (t1 / 10000000) (t2 / 10000000) with hlt | hge
    · exact Or.inl (formatClockHundredths_lt h1 h2 hlt)
    · exact Or.inr (congrArg String.mk (clockCharsHundredths_congr
        (Nat.le_antisymm (Nat.div_le_div_right hle) hge)))
  · rcases Nat.lt_or_ge (t1 / 1000000000) (t2 / 1000000000) with hlt | hge
    · exact Or.inl (formatClock_lt h2 hlt)
    · exact Or.inr (congrArg String.mk (clockChars_congr
        (Nat.le_antisymm (Nat.div_le_div_right hle) hge)))

/-- C7 witness: shape checks at noon and concrete comparisons, for both
variants. -/
theorem c7_witness :
    isClockFormatHundredths ((Part000.timeLabelResponse 43200000000000).arg1) = true ∧
    ((Part000.timeLabelResponse 0).arg1 < (Part000.timeLabelResponse 3600000000000).arg1 ∨
      (Part000.timeLabelResponse 0).arg1 = (Part000.timeLabelResponse 3600000000000).arg1) ∧
    (Part000.timeLabelResponse 0).arg1 < (Part000.timeLabelResponse 10000000).arg1 ∧
    (Part000.timeLabelResponse 0).arg1 = (Part000.timeLabelResponse 1).arg1 ∧
    isClockFormat ((ServerGo.timeLabelResponse 43200000000000).arg1) = true ∧
    (ServerGo.timeLabelResponse 0).arg1 < (ServerGo.timeLabelResponse 1000000000).arg1 ∧
    (ServerGo.timeLabelResponse 0).arg1 = (ServerGo.timeLabelResponse 20000000).arg1 :=
  ⟨(c7_time_label_format.1 43200000000000 (by norm_num [nsPerDay, nsPerSecond])).2,
   c7_time_label_format.2.1 0 3600000000000 (by norm_num [nsPerDay, nsPerSecond])
     (by norm_num [nsPerDay, nsPerSecond]) (by norm_num),
   c7_time_label_format.2.2.1 0 10000000 (by norm_num [nsPerDay, nsPerSecond])
     (by norm_num [nsPerDay, nsPerSecond]) (by norm_num),
   c7_time_label_format.2.2.2.1 0 1 (by norm_num),
   (c7_time_label_format.2.2.2.2.1 43200000000000
     (by norm_num [nsPerDay, nsPerSecond])).2,
   c7_time_label_format.2.2.2.2.2.2.1 0 1000000000 (by norm_num [nsPerDay, nsPerSecond])
     (by norm_num [nsPerDay, nsPerSecond]) (by norm_num),
   c7_time_label_format.2.2.2.2.2.2.2 0 20000000 (by norm_num)⟩

/-- C7 counterexample: part_000's instants 0 ns and 1 ns (same day, the
second strictly later) both render to "00:00:00.00", and server.go's
instants 0 ns and 20000000 ns — which lie in different hundredths — both
render to "00:00:00": in each cited variant the later instant's arg1
equals, and is not lexically greater than, the earlier one's, refuting
strict monotonicity as claimed. -/
theorem c7_counterexample :
    (0 : Nat) < 1 ∧ (1 : Nat) < nsPerDay ∧
    (Part000.timeLabelResponse 0).arg1 = (Part000.timeLabelResponse 1).arg1 ∧
    decide (List.Lex (fun a b : Char => a < b) (Part000.timeLabelResponse 0).arg1.toList
      (Part000.timeLabelResponse 1).arg1.toList) = false ∧
    (0 : Nat) < 20000000 ∧ (20000000 : Nat) < nsPerDay ∧
    (ServerGo.timeLabelResponse 0).arg1 = (ServerGo.timeLabelResponse 20000000).arg1 ∧
    decide (List.Lex (fun a b : Char => a < b) (ServerGo.timeLabelResponse 0).arg1.toList
      (ServerGo.timeLabelResponse 20000000).arg1.toList) = false := by
  refine ⟨Nat.zero_lt_one, by norm_num [nsPerDay, nsPerSecond], rfl, by decide,
    by norm_num, by norm_num [nsPerDay, nsPerSecond], rfl, by decide⟩
